import Mathlib

/-!
Verification of the build-configuration resolution and header-injection
logic of a Next.js monorepo application (`next.config.mjs` and the layout
component). The configuration object is embedded as an association list
from option names to a small JSON-like value type, so that presence and
absence of keys — the object-spread conditionals of the source — are
directly observable. The header policy builder is embedded as a pure
function from the strict-policy flag and the production flag to an ordered
list of header name/value pairs.
-/

set_option autoImplicit false
set_option maxRecDepth 8192

namespace NextMonorepo

/-- JSON-like values appearing in the resolved configuration object.
Function-valued entries of the source object (`headers`, `rewrites`,
`webpack`) are represented by the `func` tag carrying their name; the
header-returning function itself is modelled separately as `headersRoutes`. -/
inductive JVal where
  | str (s : String) : JVal
  | nat (n : Nat) : JVal
  | bool (b : Bool) : JVal
  | list (xs : List JVal) : JVal
  | obj (fields : List (String × JVal)) : JVal
  | func (name : String) : JVal

/-- Validated build-time environment flags (`buildEnv` from
`src/config/build-env.config.mjs`, as consumed by `next.config.mjs`). -/
structure BuildEnv where
  NEXT_BUILD_ENV_SOURCEMAPS : Bool
  NEXT_BUILD_ENV_CSP : Bool
  NEXT_BUILD_ENV_CI : Bool
  NEXT_BUILD_ENV_OUTPUT : String
  NEXT_BUILD_ENV_SENTRY_ENABLED : Bool
  NEXT_BUILD_ENV_SENTRY_UPLOAD_DRY_RUN : Bool
  NEXT_BUILD_ENV_SENTRY_DEBUG : Bool
  NEXT_BUILD_ENV_SENTRY_TRACING : Bool
  NEXT_BUILD_ENV_TYPECHECK : Bool
  NEXT_BUILD_ENV_LINT : Bool
  NEXT_BUILD_ENV_TSCONFIG : String
deriving DecidableEq, Repr

/-- Inputs read from outside the configuration module: the i18n
configuration object, the resolved workspace root, the build timestamp and
the `name`/`version` fields of `package.json` (absent fields are `none`). -/
structure ExternalInputs where
  i18nVal : JVal
  workspaceRoot : String
  buildTime : String
  pkgName : Option String
  pkgVersion : Option String

/-- One HTTP response header: a key/value pair. -/
structure HeaderKV where
  key : String
  value : String
deriving DecidableEq, Repr

/-- One entry of the list returned by the `headers()` function: a route
source pattern together with the headers attached to matching routes. -/
structure HeaderRoute where
  source : String
  headers : List HeaderKV
deriving DecidableEq, Repr

/-- Content-security-policy directive set passed to `createSecureHeaders`
when `NEXT_BUILD_ENV_CSP` is true (source lines 50–83), written with the
directive names in header form. -/
def strictDirectives : List (String × List String) :=
  [ ("default-src", ["\x27self\x27"])
  , ("style-src",
      [ "\x27self\x27", "\x27unsafe-inline\x27"
      , "https://unpkg.com/@graphql-yoga/graphiql/dist/style.css"
      , "https://meet.jitsi.si", "https://8x8.vc"])
  , ("script-src",
      [ "\x27self\x27", "\x27unsafe-eval\x27", "\x27unsafe-inline\x27"
      , "https://unpkg.com/@graphql-yoga/graphiql"])
  , ("frame-src", ["\x27self\x27"])
  , ("connect-src",
      [ "\x27self\x27", "https://vitals.vercel-insights.com"
      , "https://*.sentry.io"])
  , ("img-src", ["\x27self\x27", "https:", "http:", "data:"])
  , ("worker-src", ["blob:"]) ]

/-- Directive set of the content-security-policy option: the strict set
when the flag is on, the empty set otherwise (source lines 47–84). -/
def cspDirectives (csp : Bool) : List (String × List String) :=
  if csp then strictDirectives else []

/-- Options object the configuration module passes to
`createSecureHeaders` (source lines 46–96): the conditional directive set,
the `forceHTTPSRedirect` option (present with its max-age exactly when the
CSP flag is on and `NODE_ENV` is `production`), and the referrer policy. -/
structure SecureHeadersOptions where
  cspDirectiveSet : List (String × List String)
  forceHTTPSRedirect : Option Nat
  referrerPolicy : String
deriving DecidableEq, Repr

/-- Options for `createSecureHeaders` as built in the source from the CSP
flag and the production flag. -/
def secureHeadersOptions (csp isProd : Bool) : SecureHeadersOptions :=
  { cspDirectiveSet := cspDirectives csp
  , forceHTTPSRedirect := if csp && isProd then some (60 * 60 * 24 * 4) else none
  , referrerPolicy := "same-origin" }

/-- Serialisation of one CSP directive as `name value1 value2 ...`. -/
def formatDirective (p : String × List String) : String :=
  p.1 ++ " " ++ String.intercalate " " p.2

/-- Serialisation of a CSP directive set into a header value. -/
def formatDirectives (ds : List (String × List String)) : String :=
  String.intercalate "; " (ds.map formatDirective)

/-- Modelled from the spec: the `createSecureHeaders` function of the
`next-secure-headers` package is not part of the repository sources. Per
the spec the header set comprises a content-security-policy (carrying the
configured directive set), the HTTPS-redirect header when that option is
set, and the referrer policy. -/
def createSecureHeaders (o : SecureHeadersOptions) : List HeaderKV :=
  [⟨"Content-Security-Policy", formatDirectives o.cspDirectiveSet⟩]
  ++ (match o.forceHTTPSRedirect with
      | some maxAge =>
        [⟨"Strict-Transport-Security",
          "max-age=" ++ toString maxAge ++ "; includeSubDomains"⟩]
      | none => [])
  ++ [⟨"Referrer-Policy", o.referrerPolicy⟩]

/-- The precomputed `secureHeaders` list of the source (line 46). -/
def secureHeaders (csp isProd : Bool) : List HeaderKV :=
  createSecureHeaders (secureHeadersOptions csp isProd)

/-- Route source pattern used by the `headers()` function (line 252):
all page routes, not the api ones. -/
def pageRoutePattern : String := "/:path((?!api).*)*"

/-- The `headers()` function of the configuration (lines 248–260): one
route entry whose headers are the secure headers followed by the two
cross-origin isolation headers. -/
def headersRoutes (csp isProd : Bool) : List HeaderRoute :=
  [ { source := pageRoutePattern
    , headers := secureHeaders csp isProd ++
        [ ⟨"Cross-Origin-Opener-Policy", "same-origin"⟩
        , ⟨"Cross-Origin-Embedder-Policy", "same-origin"⟩ ] } ]

/-- Matching of a path, given as its character list, against the compiled
form of the route pattern `/:path((?!api).*)*`: the empty path matches,
and a non-empty path matches exactly when it begins with a slash and its
remainder does not begin with `api` (the negative lookahead). -/
def matchesChars : List Char → Bool
  | [] => true
  | c :: rest => c == '/' && !(List.isPrefixOf [ 'a', 'p', 'i'] rest)

/-- Modelled from the spec: the host framework's path matching for the
route pattern `/:path((?!api).*)*` is not part of the repository sources.
Per the spec the pattern matches every page route and excludes api routes:
a path matches exactly when it is empty or a slash-led path whose
remainder does not start with `api`. -/
def routeMatches (p : String) : Bool :=
  matchesChars p.data

/-- Value of the `images` section of the configuration (lines 134–150). -/
def imagesVal : JVal := .obj
  [ ("deviceSizes", .list
      [ .nat 640, .nat 750, .nat 828, .nat 1080, .nat 1200, .nat 1920
      , .nat 2048, .nat 3840])
  , ("imageSizes", .list
      [ .nat 16, .nat 32, .nat 48, .nat 64, .nat 96, .nat 128, .nat 256
      , .nat 384])
  , ("minimumCacheTTL", .nat 60)
  , ("formats", .list [.str "image/webp"])
  , ("loader", .str "default")
  , ("dangerouslyAllowSVG", .bool false)
  , ("disableStaticImages", .bool false)
  , ("contentSecurityPolicy",
      .str "default-src \x27self\x27; script-src \x27none\x27; sandbox;")
  , ("remotePatterns", .list
      [ .obj
          [ ("protocol", .str "https")
          , ("hostname", .str "avatars.githubusercontent.com") ] ])
  , ("unoptimized", .bool false) ]

/-- Value of the `modularizeImports` section (lines 162–181). -/
def modularizeImportsVal : JVal := .obj
  [ ("@mui/material", .obj
      [("transform", .str "@mui/material/\x7b\x7bmember\x7d\x7d")])
  , ("@mui/icons-material", .obj
      [("transform", .str "@mui/icons-material/\x7b\x7bmember\x7d\x7d")])
  , ("@mui/styles", .obj
      [("transform", .str "@mui/styles/\x7b\x7bmember\x7d\x7d")]) ]

/-- The `nextConfig` object (lines 101–318) as an association list, with
the conditional object spreads of the source rendered as conditional list
segments at the same positions. -/
def nextConfig (be : BuildEnv) (isProd : Bool) (ext : ExternalInputs) :
    List (String × JVal) :=
  [ ("reactStrictMode", .bool true)
  , ("productionBrowserSourceMaps", .bool (be.NEXT_BUILD_ENV_SOURCEMAPS == true))
  , ("i18n", ext.i18nVal)
  , ("optimizeFonts", .bool true)
  , ("httpAgentOptions", .obj [("keepAlive", .bool true)])
  , ("onDemandEntries", .obj
      [ ("maxInactiveAge",
          .nat ((if be.NEXT_BUILD_ENV_CI then 3600 else 25) * 1000)) ])
  , ("swcMinify", .bool true)
  , ("compiler", .obj [])
  , ("sentry", .obj
      [ ("hideSourceMaps", .bool true)
      , ("autoInstrumentServerFunctions", .bool false) ])
  , ("images", imagesVal)
  , ("transpilePackages", .list (if isProd then [.str "ofetch"] else []))
  , ("modularizeImports", modularizeImportsVal) ]
  ++ (if be.NEXT_BUILD_ENV_OUTPUT = "standalone" then
        [("output", .str "standalone"), ("outputFileTracing", .bool true)]
      else [])
  ++ [ ("experimental", .obj
        ((if be.NEXT_BUILD_ENV_OUTPUT = "standalone" then
            [("outputFileTracingRoot", .str ext.workspaceRoot)]
          else [])
        ++ [("esmExternals", .bool true), ("externalDir", .bool true)]))
  , ("typescript", .obj
      [ ("ignoreBuildErrors", .bool (!be.NEXT_BUILD_ENV_TYPECHECK))
      , ("tsconfigPath", .str be.NEXT_BUILD_ENV_TSCONFIG) ])
  , ("eslint", .obj
      [("ignoreDuringBuilds", .bool (!be.NEXT_BUILD_ENV_LINT))])
  , ("headers", .func "headers")
  , ("rewrites", .func "rewrites")
  , ("webpack", .func "webpack")
  , ("env", .obj
      [ ("APP_NAME", .str (ext.pkgName.getD "not-in-package.json"))
      , ("APP_VERSION", .str (ext.pkgVersion.getD "not-in-package.json"))
      , ("BUILD_TIME", .str ext.buildTime) ]) ]

/-- Removal of one key from the configuration, modelling the destructuring
`const \x7b sentry, ...rest \x7d = config` of line 337. -/
def removeKey (k : String) (cfg : List (String × JVal)) :
    List (String × JVal) :=
  cfg.filter (fun p => p.1 != k)

/-- Options passed to the Sentry webpack plugin (lines 324–335). -/
structure SentryWebpackOptions where
  dryRun : Bool
  silent : Bool
deriving DecidableEq, Repr

/-- Modelled from the spec: `withSentryConfig` of `@sentry/nextjs` is not
part of the repository sources. Per the spec it wraps the configuration
with telemetry instrumentation, adding only telemetry-specific entries and
leaving every unrelated section unchanged. -/
def withSentryConfig (cfg : List (String × JVal))
    (opts : SentryWebpackOptions) : List (String × JVal) :=
  cfg ++
    [ ("sentryWebpackPluginOptions", .obj
        [ ("dryRun", .bool opts.dryRun)
        , ("silent", .bool opts.silent) ]) ]

/-- Modelled from the spec: `withBundleAnalyzer` of
`@next/bundle-analyzer` is not part of the repository sources. Per the
spec it wraps the configuration with the bundle-analysis add-on, adding
only an analyzer-specific entry and leaving every other section
unchanged. -/
def withBundleAnalyzer (cfg : List (String × JVal)) :
    List (String × JVal) :=
  cfg ++ [("bundleAnalyzerEnabled", .bool true)]

/-- The final exported configuration (lines 320–346): the base object,
wrapped by the Sentry transformation when telemetry is enabled and
otherwise stripped of its `sentry` key, then wrapped by the bundle
analyzer when `ANALYZE` is `true`. -/
def resolveConfig (be : BuildEnv) (isProd analyze : Bool)
    (ext : ExternalInputs) : List (String × JVal) :=
  let c0 := nextConfig be isProd ext
  let c1 :=
    if be.NEXT_BUILD_ENV_SENTRY_ENABLED then
      withSentryConfig c0
        { dryRun := be.NEXT_BUILD_ENV_SENTRY_UPLOAD_DRY_RUN == true
        , silent := be.NEXT_BUILD_ENV_SENTRY_DEBUG == false }
    else removeKey "sentry" c0
  if analyze then withBundleAnalyzer c1 else c1

/-- Whether one required server environment flag is present and valid in
the ambient environment, for a given per-flag validity predicate. -/
def flagOk (valid : String → String → Bool)
    (env : List (String × String)) (k : String) : Bool :=
  match List.lookup k env with
  | some v => valid k v
  | none => false

/-- Error message naming the offending flag. -/
def serverEnvError (k : String) : String :=
  "Invalid or missing required server environment variable: " ++ k

/-- Modelled from the spec: `getServerRuntimeEnv` of
`src/config/server-runtime-env.config.mjs` is not part of the provided
sources. Per the spec it validates the required server environment flags
once at startup and fails fast with a descriptive error naming the
offending flag when one is missing or malformed. -/
def getServerRuntimeEnv (required : List String)
    (valid : String → String → Bool) (env : List (String × String)) :
    Except String (List (String × String)) :=
  match required.find? (fun k => !flagOk valid env k) with
  | some k => .error (serverEnvError k)
  | none => .ok env

/-- Startup sequence of the configuration module (lines 17–346): the
server runtime environment is validated first; only when validation
succeeds is the configuration object built and handed out. -/
def startup (required : List String) (valid : String → String → Bool)
    (env : List (String × String)) (be : BuildEnv)
    (isProd analyze : Bool) (ext : ExternalInputs) :
    Except String (List (String × JVal)) :=
  match getServerRuntimeEnv required valid env with
  | .error e => .error e
  | .ok _ => .ok (resolveConfig be isProd analyze ext)

/-- Keys that must be present in the resolved configuration for every flag
combination: every unconditional key of `nextConfig` (the `sentry` key is
conditional, being removed when telemetry is disabled). -/
def requiredKeys : List String :=
  [ "reactStrictMode", "productionBrowserSourceMaps", "i18n"
  , "optimizeFonts", "httpAgentOptions", "onDemandEntries", "swcMinify"
  , "compiler", "images", "transpilePackages", "modularizeImports"
  , "experimental", "typescript", "eslint", "headers", "rewrites"
  , "webpack", "env" ]

/-- Keys specific to the telemetry integration: the `sentry` section of
the base object and the entry added by the Sentry wrapper. -/
def telemetryKeys : List String :=
  ["sentry", "sentryWebpackPluginOptions"]

/-- First-match combinator on optional lookup results. -/
def firstSome (a b : Option JVal) : Option JVal :=
  match a with
  | some v => some v
  | none => b

/-- Sample external inputs used to instantiate universally quantified
statements. -/
def sampleExt : ExternalInputs :=
  { i18nVal := .obj [("defaultLocale", .str "en")]
  , workspaceRoot := "/workspace"
  , buildTime := "2023-06-01T00:00:00.000Z"
  , pkgName := some "web-app"
  , pkgVersion := some "3.0.0" }

/-- Sample external inputs with the package name and version missing. -/
def bareExt : ExternalInputs :=
  { i18nVal := .obj []
  , workspaceRoot := "/workspace"
  , buildTime := "2023-06-01T00:00:00.000Z"
  , pkgName := none
  , pkgVersion := none }

/-- Sample build environment: standalone output, telemetry off. -/
def sampleEnv : BuildEnv :=
  { NEXT_BUILD_ENV_SOURCEMAPS := true
  , NEXT_BUILD_ENV_CSP := true
  , NEXT_BUILD_ENV_CI := false
  , NEXT_BUILD_ENV_OUTPUT := "standalone"
  , NEXT_BUILD_ENV_SENTRY_ENABLED := false
  , NEXT_BUILD_ENV_SENTRY_UPLOAD_DRY_RUN := false
  , NEXT_BUILD_ENV_SENTRY_DEBUG := false
  , NEXT_BUILD_ENV_SENTRY_TRACING := false
  , NEXT_BUILD_ENV_TYPECHECK := true
  , NEXT_BUILD_ENV_LINT := true
  , NEXT_BUILD_ENV_TSCONFIG := "tsconfig.json" }

/-- Sample build environment: default output, telemetry on, CI on. -/
def ciEnv : BuildEnv :=
  { NEXT_BUILD_ENV_SOURCEMAPS := false
  , NEXT_BUILD_ENV_CSP := false
  , NEXT_BUILD_ENV_CI := true
  , NEXT_BUILD_ENV_OUTPUT := "classic"
  , NEXT_BUILD_ENV_SENTRY_ENABLED := true
  , NEXT_BUILD_ENV_SENTRY_UPLOAD_DRY_RUN := true
  , NEXT_BUILD_ENV_SENTRY_DEBUG := false
  , NEXT_BUILD_ENV_SENTRY_TRACING := false
  , NEXT_BUILD_ENV_TYPECHECK := false
  , NEXT_BUILD_ENV_LINT := false
  , NEXT_BUILD_ENV_TSCONFIG := "tsconfig.build.json" }

/-- Two invocations of the `headers()` function on the same input, as a
pair of results. -/
def invokeHeadersTwice (csp isProd : Bool) :
    List HeaderRoute × List HeaderRoute :=
  (headersRoutes csp isProd, headersRoutes csp isProd)

theorem firstSome_some (v : JVal) (b : Option JVal) :
    firstSome (some v) b = some v := rfl

theorem firstSome_none (b : Option JVal) : firstSome none b = b := rfl

/-- Lookup distributes over list append: the left list is consulted first. -/
theorem lookup_append (k : String) (l₁ l₂ : List (String × JVal)) :
    List.lookup k (l₁ ++ l₂) =
      firstSome (List.lookup k l₁) (List.lookup k l₂) := by
  induction l₁ with
  | nil => simp [List.lookup, firstSome]
  | cons a t ih =>
    obtain ⟨a1, a2⟩ := a
    simp only [List.cons_append, List.lookup]
    cases h : k == a1 with
    | true => simp [firstSome]
    | false => simpa using ih

/-- Removing one key leaves the lookup of every other key unchanged. -/
theorem lookup_removeKey (k s : String) (h : k ≠ s)
    (l : List (String × JVal)) :
    List.lookup k (removeKey s l) = List.lookup k l := by
  unfold removeKey
  induction l with
  | nil => rfl
  | cons a t ih =>
    obtain ⟨a1, a2⟩ := a
    by_cases h1 : a1 = s
    · subst h1
      have hk : (k == a1) = false := by
        simp only [beq_eq_false_iff_ne, ne_eq]
        exact h
      simp [List.filter, List.lookup, hk, ih]
    · have hne : (a1 != s) = true := by
        simp only [bne_iff_ne, ne_eq]
        exact h1
      cases hk : k == a1 with
      | true => simp [List.filter, hne, List.lookup, hk]
      | false => simp [List.filter, hne, List.lookup, hk, ih]

/-- The Sentry wrapper leaves the lookup of every key other than its own
telemetry entry unchanged. -/
theorem lookup_withSentryConfig (k : String)
    (h : k ≠ "sentryWebpackPluginOptions") (cfg : List (String × JVal))
    (opts : SentryWebpackOptions) :
    List.lookup k (withSentryConfig cfg opts) = List.lookup k cfg := by
  rw [withSentryConfig, lookup_append]
  have hk : (k == "sentryWebpackPluginOptions") = false := by
    simp only [beq_eq_false_iff_ne, ne_eq]
    exact h
  cases hv : List.lookup k cfg with
  | some v => simp [firstSome]
  | none => simp [firstSome, List.lookup, hk]

/-- The bundle-analyzer wrapper leaves the lookup of every key other than
its own entry unchanged. -/
theorem lookup_withBundleAnalyzer (k : String)
    (h : k ≠ "bundleAnalyzerEnabled") (cfg : List (String × JVal)) :
    List.lookup k (withBundleAnalyzer cfg) = List.lookup k cfg := by
  rw [withBundleAnalyzer, lookup_append]
  have hk : (k == "bundleAnalyzerEnabled") = false := by
    simp only [beq_eq_false_iff_ne, ne_eq]
    exact h
  cases hv : List.lookup k cfg with
  | some v => simp [firstSome]
  | none => simp [firstSome, List.lookup, hk]

/-- For every key that is not telemetry-specific, not the analyzer entry
and not the removable `sentry` section, the resolved configuration answers
lookups exactly as the base object does. -/
theorem lookup_resolveConfig (be : BuildEnv) (isProd analyze : Bool)
    (ext : ExternalInputs) (k : String)
    (hs : k ≠ "sentry") (hw : k ≠ "sentryWebpackPluginOptions")
    (hb : k ≠ "bundleAnalyzerEnabled") :
    List.lookup k (resolveConfig be isProd analyze ext) =
      List.lookup k (nextConfig be isProd ext) := by
  unfold resolveConfig
  cases hA : analyze <;> cases hS : be.NEXT_BUILD_ENV_SENTRY_ENABLED <;>
    simp [lookup_withBundleAnalyzer k hb, lookup_withSentryConfig k hw,
      lookup_removeKey k "sentry" hs]

/-- C9: the configuration's `onDemandEntries.maxInactiveAge` equals
3,600,000 milliseconds when the CI flag is set and 25,000 milliseconds
otherwise, for every combination of the other flags. -/
theorem onDemandEntries_maxInactiveAge (be : BuildEnv)
    (isProd analyze : Bool) (ext : ExternalInputs) :
    List.lookup "onDemandEntries" (resolveConfig be isProd analyze ext) =
      some (.obj [("maxInactiveAge",
        .nat (if be.NEXT_BUILD_ENV_CI then 3600000 else 25000))]) := by
  rw [lookup_resolveConfig be isProd analyze ext _ (by decide) (by decide)
    (by decide)]
  cases hCI : be.NEXT_BUILD_ENV_CI <;> simp [nextConfig, List.lookup, hCI]

/-- C4: when `NEXT_BUILD_ENV_OUTPUT` equals `standalone` the resolved
configuration contains `output: standalone`, `outputFileTracing` and
`experimental.outputFileTracingRoot`; for every other value of the flag
those keys are absent. -/
theorem standalone_keys (be : BuildEnv) (isProd analyze : Bool)
    (ext : ExternalInputs) :
    (be.NEXT_BUILD_ENV_OUTPUT = "standalone" →
      List.lookup "output" (resolveConfig be isProd analyze ext) =
        some (.str "standalone") ∧
      List.lookup "outputFileTracing" (resolveConfig be isProd analyze ext) =
        some (.bool true) ∧
      ∃ fields,
        List.lookup "experimental" (resolveConfig be isProd analyze ext) =
          some (.obj fields) ∧
        List.lookup "outputFileTracingRoot" fields =
          some (.str ext.workspaceRoot)) ∧
    (be.NEXT_BUILD_ENV_OUTPUT ≠ "standalone" →
      List.lookup "output" (resolveConfig be isProd analyze ext) = none ∧
      List.lookup "outputFileTracing" (resolveConfig be isProd analyze ext) =
        none ∧
      ∀ fields,
        List.lookup "experimental" (resolveConfig be isProd analyze ext) =
          some (.obj fields) →
        List.lookup "outputFileTracingRoot" fields = none) := by
  rw [lookup_resolveConfig be isProd analyze ext "output" (by decide)
      (by decide) (by decide),
    lookup_resolveConfig be isProd analyze ext "outputFileTracing"
      (by decide) (by decide) (by decide),
    lookup_resolveConfig be isProd analyze ext "experimental" (by decide)
      (by decide) (by decide)]
  constructor
  · intro h
    refine ⟨?_, ?_, ?_⟩
    · simp [nextConfig, List.lookup, h]
    · simp [nextConfig, List.lookup, h]
    · exact ⟨[("outputFileTracingRoot", JVal.str ext.workspaceRoot),
        ("esmExternals", JVal.bool true), ("externalDir", JVal.bool true)],
        by simp [nextConfig, List.lookup, h], rfl⟩
  · intro h
    refine ⟨?_, ?_, ?_⟩
    · simp [nextConfig, List.lookup, h]
    · simp [nextConfig, List.lookup, h]
    · intro fields hf
      have : fields =
          [("esmExternals", JVal.bool true), ("externalDir", JVal.bool true)] := by
        simp [nextConfig, List.lookup, h] at hf
        exact hf.symm
      rw [this]
      rfl

/-- Witness for C4 at two concrete environments: the standalone
environment exposes the standalone keys, the classic one omits them. -/
theorem standalone_keys_witness :
    (List.lookup "output" (resolveConfig sampleEnv true false sampleExt) =
        some (.str "standalone") ∧
      List.lookup "outputFileTracing"
          (resolveConfig sampleEnv true false sampleExt) =
        some (.bool true) ∧
      ∃ fields,
        List.lookup "experimental"
            (resolveConfig sampleEnv true false sampleExt) =
          some (.obj fields) ∧
        List.lookup "outputFileTracingRoot" fields =
          some (.str sampleExt.workspaceRoot)) ∧
    (List.lookup "output" (resolveConfig ciEnv true false sampleExt) =
        none ∧
      List.lookup "outputFileTracing"
          (resolveConfig ciEnv true false sampleExt) = none) :=
  ⟨(standalone_keys sampleEnv true false sampleExt).1 rfl,
    ((standalone_keys ciEnv true false sampleExt).2 (by decide)).1,
    ((standalone_keys ciEnv true false sampleExt).2 (by decide)).2.1⟩

/-- C7: for every combination of environment flags the Config Resolver
produces a configuration object in which no required key is missing. -/
theorem required_keys_present (be : BuildEnv) (isProd analyze : Bool)
    (ext : ExternalInputs) :
    requiredKeys.all (fun k =>
      (List.lookup k (resolveConfig be isProd analyze ext)).isSome) = true := by
  by_cases h : be.NEXT_BUILD_ENV_OUTPUT = "standalone" <;>
    cases hS : be.NEXT_BUILD_ENV_SENTRY_ENABLED <;> cases analyze <;>
      simp [requiredKeys, resolveConfig, withSentryConfig,
        withBundleAnalyzer, removeKey, nextConfig, List.lookup,
        List.filter, h, hS]

/-- C5: toggling the telemetry flag leaves every non-telemetry entry of
the resolved configuration unchanged; in particular the `images` section
is identical in both configurations. -/
theorem sentry_toggle_frame (be : BuildEnv) (isProd analyze : Bool)
    (ext : ExternalInputs) (k : String) (hk : k ∉ telemetryKeys) :
    List.lookup k (resolveConfig
        { be with NEXT_BUILD_ENV_SENTRY_ENABLED := true } isProd analyze
        ext) =
      List.lookup k (resolveConfig
        { be with NEXT_BUILD_ENV_SENTRY_ENABLED := false } isProd analyze
        ext) ∧
    List.lookup "images" (resolveConfig
        { be with NEXT_BUILD_ENV_SENTRY_ENABLED := true } isProd analyze
        ext) =
      List.lookup "images" (resolveConfig
        { be with NEXT_BUILD_ENV_SENTRY_ENABLED := false } isProd analyze
        ext) ∧
    List.lookup "images" (resolveConfig
        { be with NEXT_BUILD_ENV_SENTRY_ENABLED := true } isProd analyze
        ext) = some imagesVal := by
  have hks : k ≠ "sentry" ∧ k ≠ "sentryWebpackPluginOptions" := by
    simpa [telemetryKeys, not_or] using hk
  have main : ∀ k2 : String, k2 ≠ "sentry" →
      k2 ≠ "sentryWebpackPluginOptions" →
      List.lookup k2 (resolveConfig
          { be with NEXT_BUILD_ENV_SENTRY_ENABLED := true } isProd analyze
          ext) =
        List.lookup k2 (resolveConfig
          { be with NEXT_BUILD_ENV_SENTRY_ENABLED := false } isProd analyze
          ext) := by
    intro k2 h1 h2
    have hnc : nextConfig
        { be with NEXT_BUILD_ENV_SENTRY_ENABLED := true } isProd ext =
        nextConfig
          { be with NEXT_BUILD_ENV_SENTRY_ENABLED := false } isProd ext :=
      rfl
    cases analyze <;>
      simp [resolveConfig, lookup_withSentryConfig k2 h2,
        lookup_removeKey k2 "sentry" h1, withBundleAnalyzer, lookup_append,
        hnc]
  refine ⟨main k hks.1 hks.2, main "images" (by decide) (by decide), ?_⟩
  rw [lookup_resolveConfig _ isProd analyze ext "images" (by decide)
    (by decide) (by decide)]
  simp [nextConfig, List.lookup]

/-- Witness for C5 at a concrete environment and the key `images`. -/
theorem sentry_toggle_frame_witness :
    List.lookup "images" (resolveConfig
        { ciEnv with NEXT_BUILD_ENV_SENTRY_ENABLED := true } true false
        sampleExt) =
      List.lookup "images" (resolveConfig
        { ciEnv with NEXT_BUILD_ENV_SENTRY_ENABLED := false } true false
        sampleExt) ∧
    List.lookup "images" (resolveConfig
        { ciEnv with NEXT_BUILD_ENV_SENTRY_ENABLED := true } true false
        sampleExt) = some imagesVal :=
  ⟨(sentry_toggle_frame ciEnv true false sampleExt "images"
      (by decide)).2.1,
    (sentry_toggle_frame ciEnv true false sampleExt "images"
      (by decide)).2.2⟩

/-- C10: a package manifest lacking the name or version field yields the
fallback string in `env.APP_NAME` and `env.APP_VERSION` instead of a
startup failure. -/
theorem package_fields_fallback (required : List String)
    (valid : String → String → Bool) (env : List (String × String))
    (be : BuildEnv) (isProd analyze : Bool) (ext : ExternalInputs)
    (hok : ∀ k ∈ required, flagOk valid env k = true)
    (hname : ext.pkgName = none) (hver : ext.pkgVersion = none) :
    ∃ cfg, startup required valid env be isProd analyze ext = .ok cfg ∧
      ∃ e, List.lookup "env" cfg = some (.obj e) ∧
        List.lookup "APP_NAME" e = some (.str "not-in-package.json") ∧
        List.lookup "APP_VERSION" e = some (.str "not-in-package.json") := by
  have hfind : required.find? (fun k => !flagOk valid env k) = none := by
    rw [List.find?_eq_none]
    intro x hx
    simp [hok x hx]
  refine ⟨resolveConfig be isProd analyze ext, ?_, ?_⟩
  · simp [startup, getServerRuntimeEnv, hfind]
  · refine ⟨[("APP_NAME", .str "not-in-package.json"),
      ("APP_VERSION", .str "not-in-package.json"),
      ("BUILD_TIME", .str ext.buildTime)], ?_, rfl, rfl⟩
    rw [lookup_resolveConfig be isProd analyze ext "env" (by decide)
      (by decide) (by decide)]
    by_cases h : be.NEXT_BUILD_ENV_OUTPUT = "standalone" <;>
      simp [nextConfig, List.lookup, h, hname, hver]

/-- Witness for C10: with a valid server environment and a manifest
missing both fields, startup succeeds and both values fall back. -/
theorem package_fields_fallback_witness :
    ∃ cfg, startup ["DATABASE_URL"] (fun _ _ => true)
        [("DATABASE_URL", "postgres://localhost")] ciEnv true false
        bareExt = .ok cfg ∧
      ∃ e, List.lookup "env" cfg = some (.obj e) ∧
        List.lookup "APP_NAME" e = some (.str "not-in-package.json") ∧
        List.lookup "APP_VERSION" e = some (.str "not-in-package.json") :=
  package_fields_fallback ["DATABASE_URL"] (fun _ _ => true)
    [("DATABASE_URL", "postgres://localhost")] ciEnv true false bareExt
    (by decide) rfl rfl

/-- C3: a missing or malformed required environment flag makes startup
fail with a descriptive error naming an offending flag, before any
configuration object is produced. -/
theorem startup_fails_fast (required : List String)
    (valid : String → String → Bool) (env : List (String × String))
    (be : BuildEnv) (isProd analyze : Bool) (ext : ExternalInputs)
    (k : String) (hk : k ∈ required) (hbad : flagOk valid env k = false) :
    ∃ k2, k2 ∈ required ∧ flagOk valid env k2 = false ∧
      startup required valid env be isProd analyze ext =
        .error (serverEnvError k2) ∧
      ∀ cfg, startup required valid env be isProd analyze ext ≠
        .ok cfg := by
  have hsome : (required.find? (fun k => !flagOk valid env k)).isSome := by
    rw [List.find?_isSome]
    exact ⟨k, hk, by simp [hbad]⟩
  obtain ⟨k2, hfind⟩ := Option.isSome_iff_exists.mp hsome
  have hmem : k2 ∈ required := List.mem_of_find?_eq_some hfind
  have hbad2 : flagOk valid env k2 = false := by
    have := List.find?_some hfind
    simpa using this
  refine ⟨k2, hmem, hbad2, ?_, ?_⟩
  · simp [startup, getServerRuntimeEnv, hfind]
  · intro cfg
    simp [startup, getServerRuntimeEnv, hfind]

/-- Witness for C3: an empty environment with one required flag makes
startup fail with the error naming that flag. -/
theorem startup_fails_fast_witness :
    ∃ k2, k2 ∈ ["DATABASE_URL"] ∧
      flagOk (fun _ _ => true) [] k2 = false ∧
      startup ["DATABASE_URL"] (fun _ _ => true) [] ciEnv true false
          bareExt = .error (serverEnvError k2) ∧
      ∀ cfg, startup ["DATABASE_URL"] (fun _ _ => true) [] ciEnv true
          false bareExt ≠ .ok cfg :=
  startup_fails_fast ["DATABASE_URL"] (fun _ _ => true) [] ciEnv true
    false bareExt "DATABASE_URL" (by decide) rfl

/-- C1: with the strict-policy flag on, the returned header list carries a
content-security-policy header and the directive set is non-empty; with
the flag off, the directive set is empty but both cross-origin isolation
headers are still present in the returned list. -/
theorem headerPolicy_csp_toggle (isProd : Bool) :
    ((cspDirectives true).isEmpty = false ∧
      ∃ r ∈ headersRoutes true isProd,
        (r.headers.any fun h => h.key == "Content-Security-Policy") =
          true) ∧
    (cspDirectives false = [] ∧
      ∃ r ∈ headersRoutes false isProd,
        HeaderKV.mk "Cross-Origin-Opener-Policy" "same-origin" ∈
          r.headers ∧
        HeaderKV.mk "Cross-Origin-Embedder-Policy" "same-origin" ∈
          r.headers) := by
  cases isProd <;> decide

/-- C2 counterexample: with the strict-policy flag fixed to true, the
header list produced under `NODE_ENV = production` differs from the one
produced otherwise, so the output is not a function of the flag alone. -/
theorem headerPolicy_varies_with_node_env :
    headersRoutes true true ≠ headersRoutes true false := by
  decide

/-- C2 amended: the Header Policy Builder's output is a function of the
strict-policy flag and the production flag jointly; with the strict flag
off it does not vary with `NODE_ENV`, while with it on the output differs
between production and non-production, the difference being the
`Strict-Transport-Security` header emitted by `forceHTTPSRedirect` only
in production. -/
theorem headerPolicy_function_of_csp_and_prod (isProd isProd2 : Bool) :
    headersRoutes false isProd = headersRoutes false isProd2 ∧
    (isProd ≠ isProd2 →
      headersRoutes true isProd ≠ headersRoutes true isProd2) ∧
    ((∃ r ∈ headersRoutes true isProd,
        (r.headers.any fun h => h.key == "Strict-Transport-Security") =
          true) ↔ isProd = true) := by
  cases isProd <;> cases isProd2 <;> refine ⟨by decide, fun h => ?_, ?_⟩ <;>
    first
      | exact absurd rfl h
      | decide

/-- Witness for C2's amended statement at the production/non-production
pair of inputs. -/
theorem headerPolicy_function_of_csp_and_prod_witness :
    headersRoutes false true = headersRoutes false false ∧
    headersRoutes true true ≠ headersRoutes true false :=
  ⟨(headerPolicy_function_of_csp_and_prod true false).1,
    (headerPolicy_function_of_csp_and_prod true false).2.1 (by decide)⟩

/-- C6: the Header Policy Builder is deterministic: invoking it twice with
the same input yields identical output. In this embedding the builder is a
pure function, so the two results coincide definitionally. -/
theorem headerPolicy_deterministic (csp isProd : Bool) :
    (invokeHeadersTwice csp isProd).1 = (invokeHeadersTwice csp isProd).2 :=
  rfl

/-- C8: for every value of the strict-policy flag the route entry carries
a referrer-policy header and both cross-origin isolation headers, on the
route pattern that matches every page route and excludes api routes. -/
theorem pageRoutes_header_set (csp isProd : Bool) :
    (∃ r ∈ headersRoutes csp isProd,
      r.source = pageRoutePattern ∧
      HeaderKV.mk "Referrer-Policy" "same-origin" ∈ r.headers ∧
      HeaderKV.mk "Cross-Origin-Opener-Policy" "same-origin" ∈
        r.headers ∧
      HeaderKV.mk "Cross-Origin-Embedder-Policy" "same-origin" ∈
        r.headers) ∧
    (∀ rest : List Char,
      routeMatches ⟨'/' :: 'a' :: 'p' :: 'i' :: rest⟩ = false) ∧
    (∀ rest : List Char,
      List.isPrefixOf [ 'a', 'p', 'i'] rest = false →
      routeMatches ⟨'/' :: rest⟩ = true) := by
  refine ⟨?_, fun rest => ?_, fun rest h => ?_⟩
  · cases csp <;> cases isProd <;> decide
  · simp [routeMatches, matchesChars, List.isPrefixOf]
  · simp [routeMatches, matchesChars, h]

/-- Witness for C8: the header set is attached under both flag values, the
pattern rejects an api path and accepts a page path. -/
theorem pageRoutes_header_set_witness :
    routeMatches "/api/users" = false ∧ routeMatches "/blog" = true := by
  exact ⟨(pageRoutes_header_set true true).2.1 "/users".data,
    (pageRoutes_header_set false false).2.2 "blog".data rfl⟩

end NextMonorepo
